import Mathlib

/-!
Verification of the flamesblue.com photo-sharing backend (src/main.py,
src/schemas.py) against its design specification.

Shallow embedding conventions:
* Timestamps are `Nat` seconds; `timedelta(days=d)` is `d * 86400`.
* A MongoDB document id (`ObjectId`) is its 24-hex-character string form;
  `oid` mirrors the `oid` helper of main.py (400 on a syntactically
  invalid id string).
* The database plus GridFS blob store plus the process-wide admin-token
  set are one `World` record.  `failDelete` is an oracle saying whether a
  GridFS delete of a given file id raises a storage error (such errors are
  caught by the `try/except: pass` blocks in main.py).
* Mongo field comparisons on the optional `expires_at` field follow BSON
  semantics: `{"$lte": now}` / `{"$gt": now}` match only documents whose
  field holds an actual datetime, never `null`/missing ones.
* `delete_one` removes the first matching document, as in Mongo.
* Python truthiness of optional string fields (`p.get("image_url")`)
  is `truthy`: present and non-empty.
* Image bytes, content types, bcrypt hashing, and regex album filters are
  abstracted: blobs are bare file ids, password verification is a
  function parameter, and the Mongo filter built by `list_albums` from
  its q/location/date parameters is passed as a predicate.
* Each request handler takes the request time `now` as a parameter (one
  `now_utc()` sample per request).
-/

namespace FB

/-- A hex digit as accepted by `bson.ObjectId` (case-insensitive). -/
def isHexDigitChar (c : Char) : Bool :=
  c.isDigit || ((('a' : Char) ≤ c && c ≤ ('f' : Char)) || (('A' : Char) ≤ c && c ≤ ('F' : Char)))

/-- `bson.ObjectId(s)` succeeds on a string exactly when it is 24 hex chars. -/
def isValidOid (s : String) : Bool :=
  s.length == 24 && s.data.all isHexDigitChar

/-- An HTTPException: status code and detail string. -/
structure HErr where
  status : Nat
  detail : String
deriving DecidableEq, Repr

/-- main.py `oid`: parse an id string, HTTP 400 on an invalid one. -/
def oid (s : String) : Except HErr String :=
  if isValidOid s then .ok s else .error ⟨400, "Invalid ID"⟩

/-- Python truthiness of an optional string field read with `.get`. -/
def truthy : Option String → Bool
  | none => false
  | some s => !s.isEmpty

/-- A `photo` collection document (schemas.py `Photo`).  The display
transforms brightness/contrast/crop and the downloads counter are floats
and counters no claim touches; they are omitted. -/
structure Photo where
  id : String
  album_id : String
  file_id : Option String
  image_url : Option String
  uploaded_at : Nat
  expires_at : Option Nat
  watermark : Bool
deriving DecidableEq, Repr

/-- An `album` collection document (schemas.py `Album`). -/
structure Album where
  id : String
  event_name : String
  location : Option String
  date : Nat
  cover_image_url : Option String
  expires_in_days : Nat
  created_at : Option Nat
  updated_at : Option Nat
deriving DecidableEq, Repr

/-- A `sharetoken` collection document (schemas.py `Sharetoken`). -/
structure ShareTok where
  photo_id : String
  token : String
  expires_at : Nat
  created_at : Nat
deriving DecidableEq, Repr

/-- An `adminuser` collection document (schemas.py `Adminuser`). -/
structure AdminUser where
  email : String
  password_hash : String
  reset_code : Option String
deriving DecidableEq, Repr

/-- Database + GridFS + in-process admin-token set, plus the storage-error
oracle `failDelete` for GridFS deletes. -/
structure World where
  albums : List Album
  photos : List Photo
  blobs : List String
  tokens : List ShareTok
  admins : List AdminUser
  adminTokens : List String
  failDelete : String → Bool

/-- Mongo selector `{"expires_at": {"$lte": now}}` (null/missing never match). -/
def lteSel (now : Nat) (p : Photo) : Bool :=
  match p.expires_at with
  | some t => t ≤ now
  | none => false

/-- Mongo selector `{"expires_at": {"$gt": now}}` (null/missing never match). -/
def gtSel (now : Nat) (p : Photo) : Bool :=
  match p.expires_at with
  | some t => now < t
  | none => false

/-- main.py `album_expiry`: created_at (or now when unset) plus
`expires_in_days` days. -/
def album_expiry (a : Album) (now : Nat) : Nat :=
  (a.created_at.getD now) + a.expires_in_days * 86400

/-- An HTTP response from a blob-serving endpoint: an error status, a
redirect to an external URL, or a streamed GridFS blob. -/
inductive Resp where
  | err (status : Nat) (detail : String)
  | redirect (url : String)
  | stream (fileId : String)
deriving DecidableEq, Repr

/-- main.py `get_photo_image` (GET /api/photos/{photo_id}/image).
An uncaught GridFS `NoFile` on a missing blob surfaces as HTTP 500. -/
def get_photo_image (w : World) (photoId : String) (now : Nat) : Resp :=
  match oid photoId with
  | .error e => .err e.status e.detail
  | .ok pid =>
    match w.photos.find? (fun q => q.id == pid) with
    | none => .err 404 "Photo not found"
    | some p =>
      if lteSel now p then
        .err 410 "Photo expired"
      else if truthy p.image_url then
        .redirect (p.image_url.getD "")
      else if !(truthy p.file_id) then
        .err 404 "No image"
      else
        match oid (p.file_id.getD "") with
        | .error e => .err e.status e.detail
        | .ok fid =>
          if w.blobs.contains fid then .stream fid
          else .err 500 "Internal Server Error"

/-- main.py `download_photo` (GET /api/photos/{photo_id}/download): the
body is a single call to `get_photo_image`. -/
def download_photo (w : World) (photoId : String) (now : Nat) : Resp :=
  get_photo_image w photoId now

/-- main.py `view_share` (GET /share/{token}).  Note: the photo's own
`expires_at` is never consulted here, only the token's; and `file_id` is
dereferenced without a truthiness check (a `None` file_id makes
`ObjectId(None)` mint a fresh id whose GridFS lookup raises `NoFile`,
surfacing as HTTP 500). -/
def view_share (w : World) (token : String) (now : Nat) : Resp :=
  match w.tokens.find? (fun s => s.token == token) with
  | none => .err 404 "Invalid link"
  | some s =>
    if s.expires_at ≤ now then .err 410 "Link expired"
    else
      match oid s.photo_id with
      | .error e => .err e.status e.detail
      | .ok pid =>
        match w.photos.find? (fun q => q.id == pid) with
        | none => .err 404 "Photo not found"
        | some p =>
          if truthy p.image_url then .redirect (p.image_url.getD "")
          else
            match p.file_id with
            | none => .err 500 "Internal Server Error"
            | some fidStr =>
              match oid fidStr with
              | .error e => .err e.status e.detail
              | .ok fid =>
                if w.blobs.contains fid then .stream fid
                else .err 500 "Internal Server Error"

/-- An effect on the stores, for stating the order of destruction steps:
a GridFS delete issued for a file id, or a `delete_one` of a photo document. -/
inductive Ev where
  | delBlob (fileId : String)
  | delDoc (photoId : String)
deriving DecidableEq, Repr

/-- Mongo `delete_one({"_id": pid})`: remove the first matching document. -/
def deleteOneById : List Photo → String → List Photo
  | [], _ => []
  | q :: rest, pid => if q.id == pid then rest else q :: deleteOneById rest pid

/-- The GridFS `fs().delete(oid(fid))` attempt wrapped in `try/except: pass`:
the blob disappears only when the stored file id parses as an ObjectId and
the storage layer does not error; every failure is swallowed. -/
def tryDeleteBlob (w : World) (fid : String) : World :=
  if isValidOid fid && !(w.failDelete fid) then
    { w with blobs := w.blobs.filter (fun b => !(b == fid)) }
  else w

/-- State of the sweep loop in main.py `cleanup_expired`: current world,
`removed` counter, and the trace of destruction effects issued so far. -/
structure SweepResult where
  world : World
  removed : Nat
  trace : List Ev

/-- One iteration of the `cleanup_expired` loop body: try to delete the
blob when `file_id` is set (failure swallowed), then `delete_one` the
document and count it. -/
def cleanupStep (r : SweepResult) (p : Photo) : SweepResult :=
  let withBlob :=
    match p.file_id with
    | some fid => { r with world := tryDeleteBlob r.world fid,
                           trace := r.trace ++ [Ev.delBlob fid] }
    | none => r
  { world := { withBlob.world with
                photos := deleteOneById withBlob.world.photos p.id },
    removed := withBlob.removed + 1,
    trace := withBlob.trace ++ [Ev.delDoc p.id] }

/-- main.py `cleanup_expired`: iterate over the cursor
`find({"expires_at": {"$lte": now}})` (a snapshot of the matching
documents), deleting blob then document for each, returning the count. -/
def cleanup_expired (w : World) (now : Nat) : SweepResult :=
  (w.photos.filter (lteSel now)).foldl cleanupStep ⟨w, 0, []⟩

/-- main.py `delete_photo` (DELETE /api/photos/{photo_id}, admin): look up
the document (400 invalid id, 404 missing), try to delete its blob with
failures swallowed, then delete the document.  Returns the new world and
the trace of destruction effects. -/
def delete_photo (w : World) (photoId : String) : Except HErr (World × List Ev) :=
  match oid photoId with
  | .error e => .error e
  | .ok pid =>
    match w.photos.find? (fun q => q.id == pid) with
    | none => .error ⟨404, "Photo not found"⟩
    | some p =>
      let evs := match p.file_id with
        | some fid => [Ev.delBlob fid]
        | none => []
      let w1 := match p.file_id with
        | some fid => tryDeleteBlob w fid
        | none => w
      .ok ({ w1 with photos := deleteOneById w1.photos p.id },
           evs ++ [Ev.delDoc p.id])

/-- Insert into a list sorted descending by `key` (model of Mongo
`.sort(field, -1)`; ordering only, membership-preserving). -/
def insertDescBy (key : α → Nat) (x : α) : List α → List α
  | [] => [x]
  | y :: ys => if key y ≤ key x then x :: y :: ys else y :: insertDescBy key x ys

/-- Sort a list descending by `key`. -/
def sortDescBy (key : α → Nat) : List α → List α
  | [] => []
  | x :: xs => insertDescBy key x (sortDescBy key xs)

/-- An album as serialized by the list/get album endpoints: the document
plus the computed `expires_at` and `seconds_left` fields. -/
structure AlbumOut where
  album : Album
  expires_at : Nat
  seconds_left : Nat
deriving DecidableEq, Repr

/-- Serialization of one album in `list_albums` / `get_album`:
`expires_at` is `album_expiry`, `seconds_left` is `max 0 (exp - now)`
(Nat subtraction already truncates at 0). -/
def serializeAlbum (a : Album) (now : Nat) : AlbumOut :=
  ⟨a, album_expiry a now, album_expiry a now - now⟩

/-- main.py `list_albums` (GET /api/albums): run the cleanup sweep, then
query albums.  The Mongo filter built from the q/location/date query
parameters is regex/date matching over strings and is passed in as the
predicate `filt`. -/
def list_albums (w : World) (filt : Album → Bool) (limit : Nat) (now : Nat) :
    World × List AlbumOut :=
  let r := cleanup_expired w now
  let albums := (sortDescBy (fun a => a.created_at.getD 0) (r.world.albums.filter filt)).take limit
  (r.world, albums.map (fun a => serializeAlbum a now))

/-- main.py `get_album` (GET /api/albums/{album_id}): 400 invalid id,
404 missing, else the serialized album with computed expiry. -/
def get_album (w : World) (albumId : String) (now : Nat) : Except HErr AlbumOut :=
  match oid albumId with
  | .error e => .error e
  | .ok aid =>
    match w.albums.find? (fun a => a.id == aid) with
    | none => .error ⟨404, "Album not found"⟩
    | some a => .ok (serializeAlbum a now)

/-- main.py `list_photos` (GET /api/albums/{album_id}/photos): run the
cleanup sweep, then query photos of the album with
`{"expires_at": {"$gt": now}}`, sorted by `uploaded_at` descending. -/
def list_photos (w : World) (albumId : String) (now : Nat) :
    World × List Photo :=
  let r := cleanup_expired w now
  (r.world,
   sortDescBy Photo.uploaded_at
     (r.world.photos.filter (fun p => p.album_id == albumId && gtSel now p)))

/-- An uploaded file (bytes and metadata abstracted to the generated
GridFS file id and the generated photo document id). -/
structure Upload where
  fileId : String
  photoId : String
deriving DecidableEq, Repr

/-- main.py `upload_photos` (POST /api/albums/{album_id}/photos, admin):
400 invalid album id, 404 missing album; otherwise each file is put into
GridFS and a photo document is inserted with `expires_at` set to the
album's computed expiry.  Returns the new world, the inserted documents,
and the `created` count. -/
def upload_photos (w : World) (albumId : String) (files : List Upload)
    (watermark : Bool) (now : Nat) : Except HErr (World × List Photo × Nat) :=
  match oid albumId with
  | .error e => .error e
  | .ok aid =>
    match w.albums.find? (fun a => a.id == aid) with
    | none => .error ⟨404, "Album not found"⟩
    | some a =>
      let expires_at := album_expiry a now
      let docs := files.map (fun f =>
        ({ id := f.photoId, album_id := albumId, file_id := some f.fileId,
           image_url := none, uploaded_at := now, expires_at := some expires_at,
           watermark := watermark } : Photo))
      .ok ({ w with photos := w.photos ++ docs
                    blobs := w.blobs ++ files.map Upload.fileId },
           docs, docs.length)

/-- The keys of the document stored by main.py `create_album`
(`Album.model_dump()` plus the `created_at`/`updated_at` it sets):
note there is no stored `expires_at`. -/
def albumDocKeys : List String :=
  ["event_name", "location", "date", "cover_file_id", "cover_image_url",
   "expires_in_days", "downloads", "created_at", "updated_at"]

/-- main.py `require_admin`: the query-string token must be in the
in-process `ADMIN_TOKENS` set, else HTTP 401. -/
def require_admin (w : World) (token : Option String) : Except HErr Unit :=
  match token with
  | some t => if w.adminTokens.contains t then .ok () else .error ⟨401, "Unauthorized"⟩
  | none => .error ⟨401, "Unauthorized"⟩

/-- main.py `admin_login` (POST /api/admin/login).  `verify` and `hash`
abstract bcrypt; `envEmail`/`envPass` are the ADMIN_EMAIL/ADMIN_PASSWORD
environment defaults and `newToken` the generated session token; the
created_at/updated_at timestamps on the bootstrap insert are omitted from
the `AdminUser` record.  Invalid credentials raise HTTP 401 on both the
bootstrap and the normal path. -/
def admin_login (w : World) (email password : String)
    (verify : String → String → Bool) (hash : String → String)
    (envEmail envPass newToken : String) :
    Except HErr (World × String) :=
  match w.admins.find? (fun u => u.email == email) with
  | none =>
    if email == envEmail && password == envPass then
      .ok ({ w with admins := w.admins ++ [⟨envEmail, hash envPass, none⟩]
                    adminTokens := w.adminTokens ++ [newToken] }, newToken)
    else .error ⟨401, "Invalid credentials"⟩
  | some u =>
    if verify password u.password_hash then
      .ok ({ w with adminTokens := w.adminTokens ++ [newToken] }, newToken)
    else .error ⟨401, "Invalid credentials"⟩

/-- The destruction effects one loop iteration of the sweep issues for a
photo: the GridFS delete when a file id is set, then the document delete. -/
def segTrace (p : Photo) : List Ev :=
  (match p.file_id with
   | some fid => [Ev.delBlob fid]
   | none => []) ++ [Ev.delDoc p.id]

/-- Concatenated per-photo effects of the sweep over a cursor snapshot. -/
def flatTrace : List Photo → List Ev
  | [] => []
  | p :: l => segTrace p ++ flatTrace l

/-- `x` occurs strictly before `y` in the event list `tr`. -/
def precedes (x y : Ev) (tr : List Ev) : Prop :=
  ∃ l₁ l₂ l₃, tr = l₁ ++ x :: (l₂ ++ y :: l₃)

/-- The HTTP status of an endpoint result, when it is an error. -/
def errStatus : Except HErr α → Option Nat
  | .error e => some e.status
  | .ok _ => none

/-! ### Concrete fixtures for evaluating the theorems -/

/-- A syntactically valid photo ObjectId. -/
def pidA : String := "aaaaaaaaaaaaaaaaaaaaaaaa"

/-- A syntactically valid GridFS file ObjectId. -/
def fidA : String := "bbbbbbbbbbbbbbbbbbbbbbbb"

/-- A syntactically valid album ObjectId. -/
def cidA : String := "cccccccccccccccccccccccc"

/-- A photo that expired at time 5, owning blob `fidA`. -/
def photoA : Photo :=
  { id := pidA, album_id := "album1", file_id := some fidA, image_url := none,
    uploaded_at := 3, expires_at := some 5, watermark := false }

/-- A share token for `photoA` that expires at time 7. -/
def tokA : ShareTok := { photo_id := pidA, token := "tok", expires_at := 7, created_at := 1 }

/-- A world holding the expired `photoA`, its blob, and `tokA`. -/
def W1 : World :=
  { albums := [], photos := [photoA], blobs := [fidA], tokens := [tokA],
    admins := [], adminTokens := [], failDelete := fun _ => false }

/-- An album created at time 100 with the default 15-day lifetime. -/
def albA : Album :=
  { id := cidA, event_name := "ev", location := none, date := 0,
    cover_image_url := none, expires_in_days := 15, created_at := some 100,
    updated_at := some 100 }

/-- An admin user whose (abstracted) password hash is "secret". -/
def adminA : AdminUser :=
  { email := "admin@flamesblue.com", password_hash := "secret", reset_code := none }

/-- A world holding `albA` and `adminA` and nothing else. -/
def W2 : World :=
  { albums := [albA], photos := [], blobs := [], tokens := [],
    admins := [adminA], adminTokens := [], failDelete := fun _ => false }

/-! ### Helper lemmas about the sweep loop -/

theorem tryDeleteBlob_photos (w : World) (fid : String) :
    (tryDeleteBlob w fid).photos = w.photos := by
  unfold tryDeleteBlob; split <;> rfl

theorem tryDeleteBlob_failDelete (w : World) (fid : String) :
    (tryDeleteBlob w fid).failDelete = w.failDelete := by
  unfold tryDeleteBlob; split <;> rfl

theorem cleanupStep_removed (r : SweepResult) (p : Photo) :
    (cleanupStep r p).removed = r.removed + 1 := by
  unfold cleanupStep; cases p.file_id <;> rfl

theorem cleanupStep_photos (r : SweepResult) (p : Photo) :
    (cleanupStep r p).world.photos = deleteOneById r.world.photos p.id := by
  unfold cleanupStep
  cases p.file_id with
  | none => rfl
  | some fid => simp only; rw [tryDeleteBlob_photos]

theorem cleanupStep_failDelete (r : SweepResult) (p : Photo) :
    (cleanupStep r p).world.failDelete = r.world.failDelete := by
  unfold cleanupStep
  cases p.file_id with
  | none => rfl
  | some fid => simp only; rw [tryDeleteBlob_failDelete]

theorem foldl_cleanupStep_removed (l : List Photo) (r : SweepResult) :
    (l.foldl cleanupStep r).removed = r.removed + l.length := by
  induction l generalizing r with
  | nil => simp
  | cons p l ih =>
    rw [List.foldl_cons, ih, cleanupStep_removed, List.length_cons]
    omega

theorem foldl_cleanupStep_photos (l : List Photo) (r : SweepResult) :
    (l.foldl cleanupStep r).world.photos
      = l.foldl (fun ps p => deleteOneById ps p.id) r.world.photos := by
  induction l generalizing r with
  | nil => rfl
  | cons p l ih => rw [List.foldl_cons, ih, cleanupStep_photos, List.foldl_cons]

theorem foldl_cleanupStep_failDelete (l : List Photo) (r : SweepResult) :
    (l.foldl cleanupStep r).world.failDelete = r.world.failDelete := by
  induction l generalizing r with
  | nil => rfl
  | cons p l ih => rw [List.foldl_cons, ih, cleanupStep_failDelete]

theorem cleanupStep_blobs_sublist (r : SweepResult) (p : Photo) :
    ((cleanupStep r p).world.blobs).Sublist r.world.blobs := by
  unfold cleanupStep
  cases p.file_id with
  | none => exact List.Sublist.refl _
  | some fid =>
    simp only
    unfold tryDeleteBlob
    split
    · exact List.filter_sublist _
    · exact List.Sublist.refl _

theorem foldl_cleanupStep_blobs_sublist (l : List Photo) (r : SweepResult) :
    ((l.foldl cleanupStep r).world.blobs).Sublist r.world.blobs := by
  induction l generalizing r with
  | nil => exact List.Sublist.refl _
  | cons p l ih =>
    rw [List.foldl_cons]
    exact (ih (cleanupStep r p)).trans (cleanupStep_blobs_sublist r p)

/-- `delete_one` by id on a collection with unique ids is the same as
filtering that id out. -/
theorem deleteOneById_eq_filter (ps : List Photo) (pid : String)
    (h : (ps.map Photo.id).Nodup) :
    deleteOneById ps pid = ps.filter (fun q => !(q.id == pid)) := by
  induction ps with
  | nil => rfl
  | cons q ps ih =>
    simp only [List.map_cons, List.nodup_cons] at h
    by_cases hq : (q.id == pid) = true
    · have hqe : q.id = pid := eq_of_beq hq
      have hall : ∀ x ∈ ps, (!(x.id == pid)) = true := by
        intro x hx
        have hne : x.id ≠ pid := by
          intro hxe
          have hmm : x.id ∈ List.map Photo.id ps :=
            List.mem_map_of_mem Photo.id hx
          rw [hxe, ← hqe] at hmm
          exact h.1 hmm
        simpa using hne
      simp [deleteOneById, hq, List.filter_cons, hqe,
        List.filter_eq_self.mpr hall]
    · have hq' : (q.id == pid) = false := by simpa using hq
      simp [deleteOneById, hq', List.filter_cons, ih h.2]

theorem foldl_deleteOneById_eq_filter (ds : List String) (ps : List Photo)
    (h : (ps.map Photo.id).Nodup) :
    ds.foldl deleteOneById ps = ps.filter (fun q => !(ds.contains q.id)) := by
  induction ds generalizing ps with
  | nil => simp
  | cons d ds ih =>
    rw [List.foldl_cons, deleteOneById_eq_filter ps d h]
    have hnd : ((ps.filter (fun q => !(q.id == d))).map Photo.id).Nodup := by
      have hsub : ((ps.filter (fun q => !(q.id == d))).map Photo.id).Sublist
          (ps.map Photo.id) := (List.filter_sublist ps).map Photo.id
      exact h.sublist hsub
    rw [ih _ hnd, List.filter_filter]
    apply List.filter_congr
    intro q _
    simp only [List.contains_cons, Bool.not_or]
    rw [Bool.and_comm]

/-- The documents remaining after the sweep are exactly those the
`{"expires_at": {"$lte": now}}` selector does not match. -/
theorem cleanup_expired_world_photos (w : World) (now : Nat)
    (h : (w.photos.map Photo.id).Nodup) :
    (cleanup_expired w now).world.photos
      = w.photos.filter (fun p => !(lteSel now p)) := by
  unfold cleanup_expired
  rw [foldl_cleanupStep_photos]
  have hfold : (w.photos.filter (lteSel now)).foldl
        (fun ps p => deleteOneById ps p.id) w.photos
      = ((w.photos.filter (lteSel now)).map Photo.id).foldl deleteOneById
          w.photos := by
    rw [List.foldl_map]
  rw [hfold, foldl_deleteOneById_eq_filter _ _ h]
  apply List.filter_congr
  intro q hq
  have : ((w.photos.filter (lteSel now)).map Photo.id).contains q.id
      = lteSel now q := by
    by_cases hl : lteSel now q = true
    · have hmem : q.id ∈ (w.photos.filter (lteSel now)).map Photo.id :=
        List.mem_map_of_mem Photo.id (List.mem_filter.mpr ⟨hq, hl⟩)
      simp [hl, hmem]
    · have hnotmem : q.id ∉ (w.photos.filter (lteSel now)).map Photo.id := by
        intro hmem
        rcases List.mem_map.mp hmem with ⟨r, hr, hre⟩
        have hrp : r ∈ w.photos := (List.mem_filter.mp hr).1
        have hrl : lteSel now r := (List.mem_filter.mp hr).2
        have hrq : r = q := List.inj_on_of_nodup_map h hrp hq hre
        exact hl (hrq ▸ hrl)
      have hl' : lteSel now q = false := by simpa using hl
      simp [hl', hnotmem]
  rw [this]

theorem cleanup_expired_removed (w : World) (now : Nat) :
    (cleanup_expired w now).removed
      = (w.photos.filter (lteSel now)).length := by
  unfold cleanup_expired
  rw [foldl_cleanupStep_removed]
  simp

theorem cleanupStep_trace (r : SweepResult) (p : Photo) :
    (cleanupStep r p).trace = r.trace ++ segTrace p := by
  unfold cleanupStep segTrace
  cases p.file_id with
  | none => simp
  | some fid => simp

theorem foldl_cleanupStep_trace (l : List Photo) (r : SweepResult) :
    (l.foldl cleanupStep r).trace = r.trace ++ flatTrace l := by
  induction l generalizing r with
  | nil => simp [flatTrace]
  | cons p l ih =>
    rw [List.foldl_cons, ih, cleanupStep_trace]
    simp [flatTrace]

theorem flatTrace_mem_split (l : List Photo) (p : Photo) (h : p ∈ l) :
    ∃ s t, flatTrace l = s ++ (segTrace p ++ t) := by
  induction l with
  | nil => cases h
  | cons q l ih =>
    rcases List.mem_cons.mp h with rfl | h'
    · exact ⟨[], flatTrace l, by simp [flatTrace]⟩
    · rcases ih h' with ⟨s, t, hst⟩
      exact ⟨segTrace q ++ s, t, by simp [flatTrace, hst]⟩

/-- During the sweep the blob of a selected photo is gone for good once
its GridFS delete does not error. -/
theorem foldl_cleanupStep_blob_removed (l : List Photo) (r : SweepResult)
    (p : Photo) (fid : String) (hmem : p ∈ l) (hfid : p.file_id = some fid)
    (hvalid : isValidOid fid = true)
    (hfail : r.world.failDelete fid = false) :
    fid ∉ (l.foldl cleanupStep r).world.blobs := by
  induction l generalizing r with
  | nil => cases hmem
  | cons q l ih =>
    rw [List.foldl_cons]
    rcases List.mem_cons.mp hmem with rfl | hmem'
    · have h1 : fid ∉ (cleanupStep r p).world.blobs := by
        unfold cleanupStep
        rw [hfid]
        simp only
        unfold tryDeleteBlob
        rw [hvalid, hfail]
        simp
      intro hfinal
      exact h1 ((foldl_cleanupStep_blobs_sublist l _).subset hfinal)
    · exact ih _ hmem' (by rw [cleanupStep_failDelete]; exact hfail)

/-- `find_one` by id on a collection with unique ids returns the member
itself. -/
theorem find?_id_of_nodup (ps : List Photo) (p : Photo)
    (h : (ps.map Photo.id).Nodup) (hmem : p ∈ ps) :
    ps.find? (fun q => q.id == p.id) = some p := by
  induction ps with
  | nil => cases hmem
  | cons q ps ih =>
    simp only [List.map_cons, List.nodup_cons] at h
    rcases List.mem_cons.mp hmem with rfl | hmem'
    · simp [List.find?_cons]
    · have hne : (q.id == p.id) = false := by
        have : q.id ≠ p.id := by
          intro he
          exact h.1 (he ▸ List.mem_map_of_mem Photo.id hmem')
        simpa using this
      rw [List.find?_cons, hne]
      exact ih h.2 hmem'

theorem mem_insertDescBy {α : Type} (key : α → Nat) (x y : α) (l : List α) :
    y ∈ insertDescBy key x l ↔ y = x ∨ y ∈ l := by
  induction l with
  | nil => simp [insertDescBy]
  | cons z l ih =>
    unfold insertDescBy
    split
    · simp
    · simp only [List.mem_cons, ih]
      tauto

theorem mem_sortDescBy {α : Type} (key : α → Nat) (x : α) (l : List α) :
    x ∈ sortDescBy key l ↔ x ∈ l := by
  induction l with
  | nil => simp [sortDescBy]
  | cons z l ih =>
    unfold sortDescBy
    rw [mem_insertDescBy]
    simp [ih]

theorem cleanupStep_blobs (r : SweepResult) (p : Photo) :
    (cleanupStep r p).world.blobs
      = match p.file_id with
        | some fid => (tryDeleteBlob r.world fid).blobs
        | none => r.world.blobs := by
  unfold cleanupStep
  cases p.file_id <;> rfl

/-- A blob whose GridFS delete errors out survives the whole sweep. -/
theorem foldl_cleanupStep_blob_kept (l : List Photo) (r : SweepResult)
    (fid : String) (hf : r.world.failDelete fid = true)
    (hmem : fid ∈ r.world.blobs) :
    fid ∈ (l.foldl cleanupStep r).world.blobs := by
  induction l generalizing r with
  | nil => exact hmem
  | cons p l ih =>
    rw [List.foldl_cons]
    apply ih
    · rw [cleanupStep_failDelete]; exact hf
    · rw [cleanupStep_blobs]
      cases hp : p.file_id with
      | none => exact hmem
      | some fid' =>
        simp only
        unfold tryDeleteBlob
        split
        case isTrue hc =>
          apply List.mem_filter.mpr
          refine ⟨hmem, ?_⟩
          have hne : fid ≠ fid' := by
            intro he
            rw [Bool.and_eq_true] at hc
            rcases hc with ⟨_, hnf⟩
            rw [← he, hf] at hnf
            simp at hnf
          simpa using hne
        case isFalse => exact hmem

/-- Shared expiry fact: resolving a share link whose token is past its
expiry is HTTP 410, before the photo is even looked up. -/
theorem view_share_expired_token (w : World) (tok : String) (s : ShareTok)
    (now : Nat) (hfind : w.tokens.find? (fun x => x.token == tok) = some s)
    (hexp : s.expires_at ≤ now) :
    view_share w tok now = .err 410 "Link expired" := by
  unfold view_share
  rw [hfind]
  simp [hexp]

/-- Shared expiry fact: a direct image fetch of a found, expired photo is
HTTP 410. -/
theorem get_photo_image_expired (w : World) (pid : String) (p : Photo)
    (t now : Nat) (hvalid : isValidOid pid = true)
    (hfind : w.photos.find? (fun q => q.id == pid) = some p)
    (hexp : p.expires_at = some t) (ht : t ≤ now) :
    get_photo_image w pid now = .err 410 "Photo expired" := by
  unfold get_photo_image oid
  rw [hvalid]
  simp only [if_true, hfind]
  have : lteSel now p = true := by simp [lteSel, hexp, ht]
  rw [this]
  simp

/-! ### Claim theorems -/

/-- C10: GET /api/photos/{photo_id}/download returns exactly the result of
GET /api/photos/{photo_id}/image on every input — `download_photo`'s body
is a single call to `get_photo_image`. -/
theorem C10_download_equals_image (w : World) (pid : String) (now : Nat) :
    download_photo w pid now = get_photo_image w pid now := rfl

/-- C6: resolving GET /share/{token} for a share token whose `expires_at`
is at or before the current time fails with HTTP 410, whatever the state
of the underlying photo (the world's photo collection is arbitrary and is
never consulted). -/
theorem C6_expired_token_410 (w : World) (tok : String) (s : ShareTok)
    (now : Nat) (hfind : w.tokens.find? (fun x => x.token == tok) = some s)
    (hexp : s.expires_at ≤ now) :
    view_share w tok now = .err 410 "Link expired" :=
  view_share_expired_token w tok s now hfind hexp

theorem C6_witness :
    W1.tokens.find? (fun x => x.token == "tok") = some tokA ∧
    tokA.expires_at ≤ 10 ∧
    view_share W1 "tok" 10 = Resp.err 410 "Link expired" :=
  ⟨by decide, by decide,
   C6_expired_token_410 W1 "tok" tokA 10 (by decide) (by decide)⟩

/-- C1: a photo whose `expires_at` is strictly in the past at request time
is absent from the GET /api/albums/{album_id}/photos listing, and a direct
GET /api/photos/{photo_id}/image for it fails with HTTP 410. -/
theorem C1_expired_photo_absent_and_410 (w : World) (albumId pid : String)
    (p : Photo) (t now : Nat)
    (hvalid : isValidOid pid = true)
    (hfind : w.photos.find? (fun q => q.id == pid) = some p)
    (hexp : p.expires_at = some t) (hpast : t < now) :
    p ∉ (list_photos w albumId now).2 ∧
    get_photo_image w pid now = .err 410 "Photo expired" := by
  constructor
  · intro hmem
    unfold list_photos at hmem
    simp only at hmem
    rw [mem_sortDescBy] at hmem
    have h2 := (List.mem_filter.mp hmem).2
    rw [Bool.and_eq_true] at h2
    have hg : gtSel now p = true := h2.2
    rw [gtSel, hexp] at hg
    simp at hg
    omega
  · exact get_photo_image_expired w pid p t now hvalid hfind hexp
      (Nat.le_of_lt hpast)

theorem C1_witness :
    isValidOid pidA = true ∧
    W1.photos.find? (fun q => q.id == pidA) = some photoA ∧
    photoA.expires_at = some 5 ∧ 5 < 10 ∧
    (photoA ∉ (list_photos W1 "album1" 10).2 ∧
     get_photo_image W1 pidA 10 = Resp.err 410 "Photo expired") :=
  ⟨by decide, by decide, by decide, by decide,
   C1_expired_photo_absent_and_410 W1 "album1" pidA photoA 5 10
     (by decide) (by decide) (by decide) (by decide)⟩

/-- C2 (counterexample): the claim that every photo-read operation checks
the photo's own `expires_at` is false — `view_share` checks only the
token's expiry, so at time 6 the unexpired token `tokA` streams the blob
of `photoA`, which expired at time 5. -/
theorem C2_counterexample :
    W1.photos.find? (fun q => q.id == tokA.photo_id) = some photoA ∧
    photoA.expires_at = some 5 ∧ 5 < 6 ∧
    view_share W1 "tok" 6 = Resp.stream fidA := by
  decide

/-- C2 (amended): direct image fetch and download do each check the
photo's own `expires_at` before serving and refuse an expired photo with
HTTP 410; share-link resolution does not (see the counterexample). -/
theorem C2_image_and_download_check_expiry (w : World) (pid : String)
    (p : Photo) (t now : Nat) (hvalid : isValidOid pid = true)
    (hfind : w.photos.find? (fun q => q.id == pid) = some p)
    (hexp : p.expires_at = some t) (hpast : t < now) :
    get_photo_image w pid now = .err 410 "Photo expired" ∧
    download_photo w pid now = .err 410 "Photo expired" := by
  have h := get_photo_image_expired w pid p t now hvalid hfind hexp
    (Nat.le_of_lt hpast)
  exact ⟨h, h⟩

theorem C2_witness :
    isValidOid pidA = true ∧
    W1.photos.find? (fun q => q.id == pidA) = some photoA ∧
    (get_photo_image W1 pidA 10 = Resp.err 410 "Photo expired" ∧
     download_photo W1 pidA 10 = Resp.err 410 "Photo expired") :=
  ⟨by decide, by decide,
   C2_image_and_download_check_expiry W1 pidA photoA 5 10
     (by decide) (by decide) (by decide) (by decide)⟩

/-- C5: the sweep is idempotent — after a sweep at time `now`, a second
sweep at any time `now'` at which no further photo has expired (every
photo matching the selector at `now'` already matched at `now`) removes
zero photos.  Document ids are unique, as Mongo guarantees for `_id`. -/
theorem C5_sweep_idempotent (w : World) (now nowtwo : Nat)
    (hnodup : (w.photos.map Photo.id).Nodup)
    (hnonew : ∀ p ∈ w.photos, lteSel nowtwo p = true → lteSel now p = true) :
    (cleanup_expired (cleanup_expired w now).world nowtwo).removed = 0 := by
  rw [cleanup_expired_removed, cleanup_expired_world_photos w now hnodup]
  have hnil : (w.photos.filter (fun p => !(lteSel now p))).filter
      (lteSel nowtwo) = [] := by
    apply List.filter_eq_nil_iff.mpr
    intro q hq habs
    have h1 := List.mem_filter.mp hq
    have h2 := h1.2
    rw [hnonew q h1.1 habs] at h2
    simp at h2
  rw [hnil]
  rfl

theorem C5_witness :
    (W1.photos.map Photo.id).Nodup ∧
    (∀ p ∈ W1.photos, lteSel 12 p = true → lteSel 10 p = true) ∧
    (cleanup_expired (cleanup_expired W1 10).world 12).removed = 0 :=
  ⟨by decide, by decide,
   C5_sweep_idempotent W1 10 12 (by decide) (by decide)⟩

/-- C3: the sweep removes exactly the documents matched by
`{"expires_at": {"$lte": now}}` (what remains is the unmatched rest),
returns the count of documents removed, and both public list endpoints
run it first — their resulting state is exactly the post-sweep world.
Document ids are unique, as Mongo guarantees for `_id`. -/
theorem C3_sweep_exact_and_invoked (w : World) (now : Nat) (albumId : String)
    (filt : Album → Bool) (limit : Nat)
    (hnodup : (w.photos.map Photo.id).Nodup) :
    (cleanup_expired w now).world.photos
        = w.photos.filter (fun p => !(lteSel now p)) ∧
    (cleanup_expired w now).removed
        = (w.photos.filter (lteSel now)).length ∧
    (list_albums w filt limit now).1 = (cleanup_expired w now).world ∧
    (list_photos w albumId now).1 = (cleanup_expired w now).world :=
  ⟨cleanup_expired_world_photos w now hnodup, cleanup_expired_removed w now,
   rfl, rfl⟩

theorem C3_witness :
    (W1.photos.map Photo.id).Nodup ∧
    ((cleanup_expired W1 10).world.photos
        = W1.photos.filter (fun p => !(lteSel 10 p)) ∧
     (cleanup_expired W1 10).removed
        = (W1.photos.filter (lteSel 10)).length ∧
     (list_albums W1 (fun _ => true) 60 10).1 = (cleanup_expired W1 10).world ∧
     (list_photos W1 "album1" 10).1 = (cleanup_expired W1 10).world) :=
  ⟨by decide,
   C3_sweep_exact_and_invoked W1 10 "album1" (fun _ => true) 60 (by decide)⟩

/-- C8: a storage failure while deleting a blob during the sweep is
swallowed: the removed count and the surviving documents are identical
under any two failure oracles (so the document is still deleted, counted,
and the loop continues), and a blob whose delete fails stays behind. -/
theorem C8_blob_failure_swallowed (w : World) (now : Nat)
    (f g : String → Bool) :
    (cleanup_expired { w with failDelete := f } now).removed
        = (w.photos.filter (lteSel now)).length ∧
    (cleanup_expired { w with failDelete := f } now).world.photos
        = (cleanup_expired { w with failDelete := g } now).world.photos ∧
    (∀ fid, f fid = true → fid ∈ w.blobs →
        fid ∈ (cleanup_expired { w with failDelete := f } now).world.blobs) := by
  refine ⟨?_, ?_, ?_⟩
  · rw [cleanup_expired_removed]
  · unfold cleanup_expired
    rw [foldl_cleanupStep_photos, foldl_cleanupStep_photos]
  · intro fid hf hmem
    unfold cleanup_expired
    exact foldl_cleanupStep_blob_kept _ _ fid hf hmem

theorem C8_witness :
    (cleanup_expired { W1 with failDelete := fun s => s == fidA } 10).removed
        = (W1.photos.filter (lteSel 10)).length ∧
    fidA ∈ (cleanup_expired { W1 with failDelete := fun s => s == fidA }
        10).world.blobs :=
  ⟨(C8_blob_failure_swallowed W1 10 (fun s => s == fidA) (fun _ => false)).1,
   (C8_blob_failure_swallowed W1 10 (fun s => s == fidA)
      (fun _ => false)).2.2 fidA (by decide) (by decide)⟩

/-- C4: for a photo owning a blob, both destruction paths issue the GridFS
delete before the document delete, and when the blob delete does not error
both document and blob are absent afterwards.  The admin path's effect
list is literally blob-then-document; on the sweep path the blob delete
precedes the document delete in the sweep's effect trace. -/
theorem C4_blob_before_document (w : World) (p : Photo) (fid : String)
    (hmem : p ∈ w.photos) (hfid : p.file_id = some fid)
    (hvp : isValidOid p.id = true) (hvf : isValidOid fid = true)
    (hok : w.failDelete fid = false)
    (hnodup : (w.photos.map Photo.id).Nodup) :
    (∃ wtwo, delete_photo w p.id
        = .ok (wtwo, [Ev.delBlob fid, Ev.delDoc p.id]) ∧
       (∀ q ∈ wtwo.photos, q.id ≠ p.id) ∧ fid ∉ wtwo.blobs) ∧
    (∀ now t, p.expires_at = some t → t ≤ now →
       precedes (Ev.delBlob fid) (Ev.delDoc p.id)
         (cleanup_expired w now).trace ∧
       (∀ q ∈ (cleanup_expired w now).world.photos, q.id ≠ p.id) ∧
       fid ∉ (cleanup_expired w now).world.blobs) := by
  constructor
  · refine ⟨{ tryDeleteBlob w fid with
              photos := deleteOneById (tryDeleteBlob w fid).photos p.id },
      ?_, ?_, ?_⟩
    · unfold delete_photo oid
      rw [hvp]
      simp only [if_pos]
      rw [find?_id_of_nodup w.photos p hnodup hmem]
      simp [hfid]
    · intro q hq
      have hq' : q ∈ deleteOneById (tryDeleteBlob w fid).photos p.id := hq
      rw [tryDeleteBlob_photos, deleteOneById_eq_filter _ _ hnodup] at hq'
      have h2 := (List.mem_filter.mp hq').2
      simpa using h2
    · intro habs
      have habs' : fid ∈ (tryDeleteBlob w fid).blobs := habs
      unfold tryDeleteBlob at habs'
      rw [hvf, hok] at habs'
      simp at habs'
  · intro now t hexp hle
    have hsel : p ∈ w.photos.filter (lteSel now) :=
      List.mem_filter.mpr ⟨hmem, by simp [lteSel, hexp, hle]⟩
    refine ⟨?_, ?_, ?_⟩
    · have htr : (cleanup_expired w now).trace
          = flatTrace (w.photos.filter (lteSel now)) := by
        unfold cleanup_expired
        rw [foldl_cleanupStep_trace]
        simp
      rcases flatTrace_mem_split _ p hsel with ⟨s, tl, hst⟩
      refine ⟨s, [], tl, ?_⟩
      rw [htr, hst]
      simp [segTrace, hfid]
    · intro q hq
      rw [cleanup_expired_world_photos w now hnodup] at hq
      have h1 := List.mem_filter.mp hq
      intro he
      have hqp : q = p := List.inj_on_of_nodup_map hnodup h1.1 hmem he
      have h2 := h1.2
      rw [hqp] at h2
      simp [lteSel, hexp, hle] at h2
    · unfold cleanup_expired
      exact foldl_cleanupStep_blob_removed _ _ p fid hsel hfid hvf hok

theorem C4_witness :
    (∃ wtwo, delete_photo W1 photoA.id
        = .ok (wtwo, [Ev.delBlob fidA, Ev.delDoc photoA.id]) ∧
       (∀ q ∈ wtwo.photos, q.id ≠ photoA.id) ∧ fidA ∉ wtwo.blobs) ∧
    (precedes (Ev.delBlob fidA) (Ev.delDoc photoA.id)
        (cleanup_expired W1 10).trace ∧
     (∀ q ∈ (cleanup_expired W1 10).world.photos, q.id ≠ photoA.id) ∧
     fidA ∉ (cleanup_expired W1 10).world.blobs) :=
  ⟨(C4_blob_before_document W1 photoA fidA (by decide) (by decide)
      (by decide) (by decide) (by decide) (by decide)).1,
   (C4_blob_before_document W1 photoA fidA (by decide) (by decide)
      (by decide) (by decide) (by decide) (by decide)).2 10 5
      (by decide) (by decide)⟩

/-- C7: for an album with a stored creation time, the computed expiry is
`created_at + expires_in_days` days; album reads return exactly this
computed value; photos inserted by upload snapshot it into their own
`expires_at`; and the stored album document has no `expires_at` key. -/
theorem C7_album_expiry_computed (w : World) (a : Album) (aid : String)
    (c now : Nat) (hvalid : isValidOid aid = true)
    (hfind : w.albums.find? (fun x => x.id == aid) = some a)
    (hc : a.created_at = some c) :
    album_expiry a now = c + a.expires_in_days * 86400 ∧
    get_album w aid now = .ok (serializeAlbum a now) ∧
    (serializeAlbum a now).expires_at = album_expiry a now ∧
    (∀ files wm wtwo docs n,
        upload_photos w aid files wm now = .ok (wtwo, docs, n) →
        ∀ q ∈ docs, q.expires_at = some (album_expiry a now)) ∧
    "expires_at" ∉ albumDocKeys := by
  refine ⟨?_, ?_, rfl, ?_, by decide⟩
  · unfold album_expiry
    rw [hc]
    rfl
  · simp [get_album, oid, hvalid, hfind]
  · intro files wm wtwo docs n hup q hq
    have heq : upload_photos w aid files wm now
        = .ok ({ w with
                  photos := w.photos ++ files.map (fun f =>
                    ({ id := f.photoId, album_id := aid,
                       file_id := some f.fileId, image_url := none,
                       uploaded_at := now,
                       expires_at := some (album_expiry a now),
                       watermark := wm } : Photo)),
                  blobs := w.blobs ++ files.map Upload.fileId },
               files.map (fun f =>
                 ({ id := f.photoId, album_id := aid,
                    file_id := some f.fileId, image_url := none,
                    uploaded_at := now,
                    expires_at := some (album_expiry a now),
                    watermark := wm } : Photo)),
               (files.map (fun f =>
                 ({ id := f.photoId, album_id := aid,
                    file_id := some f.fileId, image_url := none,
                    uploaded_at := now,
                    expires_at := some (album_expiry a now),
                    watermark := wm } : Photo))).length) := by
      unfold upload_photos oid
      rw [hvalid]
      simp only [if_pos]
      rw [hfind]
    rw [heq] at hup
    injection hup with hpair
    have hdocs : docs = files.map (fun f =>
        ({ id := f.photoId, album_id := aid, file_id := some f.fileId,
           image_url := none, uploaded_at := now,
           expires_at := some (album_expiry a now),
           watermark := wm } : Photo)) := by
      have := congrArg (fun x => x.2.1) hpair
      exact this.symm
    rw [hdocs] at hq
    rcases List.mem_map.mp hq with ⟨u, _, hqe⟩
    rw [← hqe]

theorem C7_witness :
    isValidOid cidA = true ∧
    W2.albums.find? (fun x => x.id == cidA) = some albA ∧
    albA.created_at = some 100 ∧
    (album_expiry albA 10 = 100 + albA.expires_in_days * 86400 ∧
     get_album W2 cidA 10 = .ok (serializeAlbum albA 10) ∧
     (serializeAlbum albA 10).expires_at = album_expiry albA 10 ∧
     (∀ files wm wtwo docs n,
        upload_photos W2 cidA files wm 10 = .ok (wtwo, docs, n) →
        ∀ q ∈ docs, q.expires_at = some (album_expiry albA 10)) ∧
     "expires_at" ∉ albumDocKeys) :=
  ⟨by decide, by decide, by decide,
   C7_album_expiry_computed W2 albA cidA 100 10
     (by decide) (by decide) (by decide)⟩

/-- C9 (counterexample): invalid admin credentials do not produce HTTP
400 — logging in with a wrong password against an existing admin user
yields HTTP 401. -/
theorem C9_counterexample :
    errStatus (admin_login W2 "admin@flamesblue.com" "wrong"
        (fun pw h => pw == h) (fun pw => pw)
        "admin@flamesblue.com" "admin" "tok") = some 401 ∧
    (401 : Nat) ≠ 400 := by
  decide

/-- C9 (amended): a syntactically invalid resource id produces 400;
invalid admin credentials produce 401 (both the existing-user and the
bootstrap branch), as does a missing or invalid admin token; a missing
resource produces 404; an expired resource produces 410. -/
theorem C9_error_status_mapping :
    (∀ s, isValidOid s = false → oid s = .error ⟨400, "Invalid ID"⟩) ∧
    (∀ w email pw verify hash ee ep tk u,
        (World.admins w).find? (fun x => x.email == email) = some u →
        verify pw u.password_hash = false →
        admin_login w email pw verify hash ee ep tk
          = .error ⟨401, "Invalid credentials"⟩) ∧
    (∀ w email pw verify hash ee ep tk,
        (World.admins w).find? (fun x => x.email == email) = none →
        ((email == ee) && (pw == ep)) = false →
        admin_login w email pw verify hash ee ep tk
          = .error ⟨401, "Invalid credentials"⟩) ∧
    (∀ w tok, (∀ t, tok = some t → w.adminTokens.contains t = false) →
        require_admin w tok = .error ⟨401, "Unauthorized"⟩) ∧
    (∀ w pid now, isValidOid pid = true →
        w.photos.find? (fun q => q.id == pid) = none →
        get_photo_image w pid now = .err 404 "Photo not found") ∧
    (∀ w pid p t now, isValidOid pid = true →
        w.photos.find? (fun q => q.id == pid) = some p →
        p.expires_at = some t → t ≤ now →
        get_photo_image w pid now = .err 410 "Photo expired") ∧
    (∀ w tok s now, w.tokens.find? (fun x => x.token == tok) = some s →
        s.expires_at ≤ now →
        view_share w tok now = .err 410 "Link expired") := by
  refine ⟨?_, ?_, ?_, ?_, ?_, ?_, ?_⟩
  · intro s hs
    simp [oid, hs]
  · intro w email pw verify hash ee ep tk u hfind hv
    simp [admin_login, hfind, hv]
  · intro w email pw verify hash ee ep tk hfind hne
    simp [admin_login, hfind, hne]
  · intro w tok ht
    cases tok with
    | none => rfl
    | some t =>
      simp only [require_admin, ht t rfl]
      rfl
  · intro w pid now hv hfind
    simp [get_photo_image, oid, hv, hfind]
  · intro w pid p t now hv hfind hexp hle
    exact get_photo_image_expired w pid p t now hv hfind hexp hle
  · intro w tok s now hfind hexp
    exact view_share_expired_token w tok s now hfind hexp

theorem C9_witness :
    oid "zz" = Except.error ⟨400, "Invalid ID"⟩ ∧
    admin_login W2 "admin@flamesblue.com" "wrong" (fun pw h => pw == h)
      (fun pw => pw) "admin@flamesblue.com" "admin" "tok"
      = .error ⟨401, "Invalid credentials"⟩ ∧
    admin_login W1 "nobody@nowhere.test" "pw" (fun pw h => pw == h)
      (fun pw => pw) "admin@flamesblue.com" "admin" "tok"
      = .error ⟨401, "Invalid credentials"⟩ ∧
    require_admin W1 (some "bad") = .error ⟨401, "Unauthorized"⟩ ∧
    get_photo_image W2 pidA 10 = Resp.err 404 "Photo not found" ∧
    get_photo_image W1 pidA 10 = Resp.err 410 "Photo expired" ∧
    view_share W1 "tok" 10 = Resp.err 410 "Link expired" :=
  ⟨C9_error_status_mapping.1 "zz" (by decide),
   C9_error_status_mapping.2.1 W2 "admin@flamesblue.com" "wrong"
     (fun pw h => pw == h) (fun pw => pw) "admin@flamesblue.com" "admin"
     "tok" adminA (by decide) (by decide),
   C9_error_status_mapping.2.2.1 W1 "nobody@nowhere.test" "pw"
     (fun pw h => pw == h) (fun pw => pw) "admin@flamesblue.com" "admin"
     "tok" (by decide) (by decide),
   C9_error_status_mapping.2.2.2.1 W1 (some "bad")
     (by intro t htt
         injection htt with h
         rw [← h]
         decide),
   C9_error_status_mapping.2.2.2.2.1 W2 pidA 10 (by decide) (by decide),
   C9_error_status_mapping.2.2.2.2.2.1 W1 pidA photoA 5 10
     (by decide) (by decide) (by decide) (by decide),
   C9_error_status_mapping.2.2.2.2.2.2 W1 "tok" tokA 10
     (by decide) (by decide)⟩

end FB
